import Mathlib

/-!
Verification development for the KDJ multi-timeframe trading bot
(`binance_bot_indicators.py`, `binance_bot_core.py`).

The Python sources are shallowly embedded: pandas/float computations are
modelled over `ℚ`, with an explicit `PFloat` type reproducing the IEEE
special values (`NaN`, `±inf`) exactly where the source relies on them
(the RSV division and the subsequent `replace`/`fillna` calls).  Stateful
methods on `BinanceTradingBot` become pure functions of an explicit
`BotState`, and each externally-determined branch of an operation (order
fill extracted / extraction failed / rejection paths) becomes an explicit
event constructor, with the exact mutations of the corresponding source
lines.
-/

namespace KdjBot

/-- One OHLC candle.  The source (`prepare_dataframe`) also carries
open/volume columns, but no modelled computation reads them: only
`high`, `low` and `close` are consumed by `calculate_kdj`,
`calculate_bollinger_bands` and `analyze_kdj_signals`. -/
structure Candle where
  high : ℚ
  low : ℚ
  close : ℚ
deriving Repr, DecidableEq

/-- Pandas float cell: a finite value, `NaN`, or a signed infinity.
Used to model the RSV pipeline of `calculate_kdj` (lines 7-17 of
`binance_bot_indicators.py`), whose behaviour on zero denominators and
incomplete rolling windows goes through these special values. -/
inductive PFloat where
  | fin (q : ℚ)
  | nan
  | pinf
  | ninf
deriving Repr, DecidableEq

/-- Subtraction on pandas floats (only the finite/NaN cases arise here:
rolling aggregates are finite or NaN, never infinite). -/
def PFloat.sub : PFloat → PFloat → PFloat
  | .fin a, .fin b => .fin (a - b)
  | _, _ => .nan

/-- Division on pandas floats, following IEEE-754 as numpy/pandas do:
`x/0` is `±inf` for `x ≠ 0` and `NaN` for `x = 0`; `NaN` propagates. -/
def PFloat.div : PFloat → PFloat → PFloat
  | .fin a, .fin b =>
      if b = 0 then
        if a = 0 then .nan
        else if a > 0 then .pinf
        else .ninf
      else .fin (a / b)
  | _, _ => .nan

/-- Multiplication of a pandas float by a positive finite constant
(the `* 100` in the RSV formula). -/
def PFloat.mulPos (c : ℚ) : PFloat → PFloat
  | .fin a => .fin (a * c)
  | .nan => .nan
  | .pinf => .pinf
  | .ninf => .ninf

/-- The `replace([inf,-inf], nan)` followed by `fillna(50)` of
`calculate_kdj` (lines 14-16): every non-finite cell becomes the
neutral value 50. -/
def PFloat.filled : PFloat → ℚ
  | .fin a => a
  | _ => 50

/-- Minimum of a non-empty list (the empty case is unreachable where
used; 0 is a dummy). -/
def listMin : List ℚ → ℚ
  | [] => 0
  | x :: t => t.foldl min x

/-- Maximum of a non-empty list (the empty case is unreachable where
used; 0 is a dummy). -/
def listMax : List ℚ → ℚ
  | [] => 0
  | x :: t => t.foldl max x

/-- The rolling window of width `k` ending at index `i`: elements
`i+1-k .. i` of `xs`.  (Meaningful when `k ≤ i+1`.) -/
def window (k i : ℕ) (xs : List ℚ) : List ℚ :=
  (xs.take (i + 1)).drop (i + 1 - k)

/-- `Series.rolling(window=k).min()` at index `i`: `NaN` (here `none`)
until `k` observations exist, else the window minimum. -/
def rollingMin (k : ℕ) (xs : List ℚ) (i : ℕ) : Option ℚ :=
  if i + 1 < k then none else some (listMin (window k i xs))

/-- `Series.rolling(window=k).max()` at index `i`. -/
def rollingMax (k : ℕ) (xs : List ℚ) (i : ℕ) : Option ℚ :=
  if i + 1 < k then none else some (listMax (window k i xs))

/-- Lift a rolling aggregate into a pandas float cell. -/
def optToPFloat : Option ℚ → PFloat
  | none => .nan
  | some q => .fin q

/-- The RSV cell at index `i`
(`(close - low_min) / (high_max - low_min) * 100`, then
`replace([inf,-inf], nan).fillna(50)`), for candle list `cs` and window
`k_period`.  Faithful to lines 7-17 of `binance_bot_indicators.py`. -/
def rsvAt (k_period : ℕ) (cs : List Candle) (i : ℕ) : ℚ :=
  let lows := cs.map Candle.low
  let highs := cs.map Candle.high
  let closeI : PFloat := .fin ((cs.map Candle.close).getD i 0)
  let lowMin := optToPFloat (rollingMin k_period lows i)
  let highMax := optToPFloat (rollingMax k_period highs i)
  (((closeI.sub lowMin).div (highMax.sub lowMin)).mulPos 100).filled

/-- The full RSV column after `fillna(50)`. -/
def rsvList (k_period : ℕ) (cs : List Candle) : List ℚ :=
  (List.range cs.length).map (rsvAt k_period cs)

/-- Tail of `Series.ewm(span, adjust=False).mean()`: `prev` is the
previous smoothed value, `α` the smoothing factor. -/
def ewmAux (a : ℚ) (prev : ℚ) : List ℚ → List ℚ
  | [] => []
  | x :: t =>
      let v := a * x + (1 - a) * prev
      v :: ewmAux a v t

/-- `Series.ewm(span, adjust=False).mean()`: seeded by the first value,
recurrence `v_i = α x_i + (1-α) v_{i-1}` with `α = 2/(span+1)`. -/
def ewm (span : ℕ) : List ℚ → List ℚ
  | [] => []
  | x :: t => x :: ewmAux (2 / ((span : ℚ) + 1)) x t

/-- The indicator columns produced by `calculate_kdj` (plus the
20-period close SMA of `calculate_bollinger_bands`, the only
Bollinger column expressible exactly in `ℚ`; the `std`/`UB`/`LB`
columns involve a floating-point square root and are read by no
modelled observer — `analyze_kdj_signals` reads only `%K`, `%D`,
`%J`). -/
structure KdjFrame where
  rsv : List ℚ
  K : List ℚ
  D : List ℚ
  J : List ℚ
  SMA : List (Option ℚ)
deriving Repr, DecidableEq

/-- `Series.rolling(window=k).mean()` at index `i`. -/
def rollingMean (k : ℕ) (xs : List ℚ) (i : ℕ) : Option ℚ :=
  if i + 1 < k ∨ k = 0 then none
  else some ((window k i xs).sum / (k : ℚ))

/-- `calculate_kdj(df, k_period, k_smooth, d_smooth)`: RSV (with
neutral-50 substitution), then `%K = EMA(rsv, k_smooth)`,
`%D = EMA(%K, d_smooth)`, `%J = 3K - 2D`. -/
def calculate_kdj (cs : List Candle) (k_period k_smooth d_smooth : ℕ) : KdjFrame :=
  let rsv := rsvList k_period cs
  let K := ewm k_smooth rsv
  let D := ewm d_smooth K
  let J := List.zipWith (fun k d => 3 * k - 2 * d) K D
  { rsv := rsv, K := K, D := D, J := J,
    SMA := (List.range cs.length).map (rollingMean 20 (cs.map Candle.close)) }

/-- `calculate_indicators(df, kdj_params)`: KDJ with the given
parameters, then Bollinger columns (of which only the SMA is modelled,
see `KdjFrame`).  Note the source performs no candle-count check of any
kind. -/
def calculate_indicators (cs : List Candle) (params : ℕ × ℕ × ℕ) : KdjFrame :=
  calculate_kdj cs params.1 params.2.1 params.2.2

/-- Per-timeframe vote as produced by `analyze_kdj_signals`. -/
inductive Vote where
  | BUY
  | SELL
  | HOLD
  | UNDEFINED
deriving Repr, DecidableEq

/-- Per-timeframe trend label as produced by `analyze_kdj_signals`. -/
inductive Trend where
  | BULLISH
  | BEARISH
  | NEUTRAL
  | UNDEFINED
deriving Repr, DecidableEq

/-- The dictionary returned by `analyze_kdj_signals` (and consumed by
`generate_combined_signal`): vote, trend, cross and extreme flags, and
the latest K/D/J values (`none` in the insufficient-data sentinel). -/
structure TfResult where
  signal : Vote
  trend : Trend
  golden_cross : Bool
  death_cross : Bool
  j_overbought : Bool
  j_oversold : Bool
  K : Option ℚ
  D : Option ℚ
  J : Option ℚ
deriving Repr, DecidableEq

/-- The `len(df) < 2` sentinel of `analyze_kdj_signals` (lines 62-67):
vote and trend UNDEFINED, all flags absent (falsy when read through
`.get(..., False)` by the fuser). -/
def undefinedTfResult : TfResult :=
  { signal := .UNDEFINED, trend := .UNDEFINED,
    golden_cross := false, death_cross := false,
    j_overbought := false, j_oversold := false,
    K := none, D := none, J := none }

/-- `analyze_kdj_signals(df)`: evaluated on the last two rows.  The
row count of the source dataframe equals `f.K.length` for every frame
built by `calculate_indicators`. -/
def analyze_kdj_signals (f : KdjFrame) : TfResult :=
  let n := f.K.length
  if n < 2 then undefinedTfResult
  else
    let curK := f.K.getD (n - 1) 0
    let prevK := f.K.getD (n - 2) 0
    let curD := f.D.getD (n - 1) 0
    let prevD := f.D.getD (n - 2) 0
    let curJ := f.J.getD (n - 1) 0
    let golden_cross := prevK ≤ prevD ∧ curK > curD
    let death_cross := prevK ≥ prevD ∧ curK < curD
    let trend : Trend :=
      if curK > 50 ∧ curD > 50 then .BULLISH
      else if curK < 50 ∧ curD < 50 then .BEARISH
      else .NEUTRAL
    let j_overbought := curJ > 80
    let j_oversold := curJ < 20
    let signal : Vote :=
      if golden_cross ∨ (curK > curD ∧ j_oversold) then .BUY
      else if death_cross ∨ (curK < curD ∧ j_overbought) then .SELL
      else .HOLD
    { signal := signal, trend := trend,
      golden_cross := decide golden_cross, death_cross := decide death_cross,
      j_overbought := decide j_overbought, j_oversold := decide j_oversold,
      K := some curK, D := some curD, J := some curJ }

/-- Trading mode of the bot (`self.trading_mode`). -/
inductive TradingMode where
  | SPOT
  | FUTURES
deriving Repr, DecidableEq

/-- Market regime label (`self.current_market_condition`). -/
inductive MarketCondition where
  | TRENDING
  | RANGING
deriving Repr, DecidableEq

/-- `self.market_conditions[..]['signal_strength_threshold']`
(`binance_bot_core.py` lines 46-57). -/
def signal_strength_threshold : MarketCondition → ℤ
  | .TRENDING => 4
  | .RANGING => 6

/-- `self.market_conditions[..]['take_profit_percentage']`. -/
def take_profit_percentage : MarketCondition → ℚ
  | .TRENDING => 5 / 2
  | .RANGING => 3 / 2

/-- `self.market_conditions[..]['stop_loss_percentage']`. -/
def stop_loss_percentage : MarketCondition → ℚ
  | .TRENDING => 3 / 2
  | .RANGING => 1

/-- The fused directional decision (`'BUY'|'SELL'|'LONG'|'SHORT'|'HOLD'`). -/
inductive FinalSig where
  | BUY
  | SELL
  | LONG
  | SHORT
  | HOLD
deriving Repr, DecidableEq

/-- The dictionary returned by `generate_combined_signal`.
`raw_strength` is `none` on the insufficient-data early return (line
582-586), which carries only `signal`/`strength`/`explanation`. -/
structure CombinedSignal where
  signal : FinalSig
  strength : ℤ
  raw_strength : Option ℤ
deriving Repr, DecidableEq

/-- The signed accumulator of `generate_combined_signal` (lines
593-686): buy-scoring branch if a fast-timeframe BUY vote is present,
else sell-scoring branch if a fast-timeframe SELL vote is present,
else 0.  `high`/`medium`/`low`/`ultra` are the 4h/1h/15m/5m results. -/
def combined_raw_strength (high medium low ultra : TfResult) : ℤ :=
  if ultra.signal = .BUY ∨ low.signal = .BUY then
    (if ultra.signal = .BUY then 3 else 0)
      + (if low.signal = .BUY then 2 else 0)
      + (if ultra.golden_cross then 2 else 0)
      + (if low.golden_cross then 1 else 0)
      + (if medium.trend = .BULLISH then 1 else 0)
      + (if high.trend = .BULLISH then 2 else 0)
      + (if medium.signal = .BUY then 1 else 0)
      + (if ultra.j_oversold then 2 else if low.j_oversold then 1 else 0)
      + (if high.trend = .BEARISH then -2 else 0)
  else if ultra.signal = .SELL ∨ low.signal = .SELL then
    (if ultra.signal = .SELL then -3 else 0)
      + (if low.signal = .SELL then -2 else 0)
      + (if ultra.death_cross then -2 else 0)
      + (if low.death_cross then -1 else 0)
      + (if medium.trend = .BEARISH then -1 else 0)
      + (if high.trend = .BEARISH then -2 else 0)
      + (if medium.signal = .SELL then -1 else 0)
      + (if ultra.j_overbought then -2 else if low.j_overbought then -1 else 0)
      + (if high.trend = .BULLISH then 2 else 0)
  else 0

/-- `generate_combined_signal(multi_timeframe_results)` (lines
571-708), with the regime passed in (the source reads it through
`detect_market_condition`, which is evaluated only after the
insufficient-data guard).  Early return HOLD/0 when the 5m or 15m vote
is UNDEFINED; otherwise threshold decision on the signed accumulator,
relabelled LONG/SHORT in futures mode, with `strength = abs(raw)`. -/
def generate_combined_signal (mode : TradingMode) (mc : MarketCondition)
    (high medium low ultra : TfResult) : CombinedSignal :=
  if low.signal = .UNDEFINED ∨ ultra.signal = .UNDEFINED then
    { signal := .HOLD, strength := 0, raw_strength := none }
  else
    let threshold := signal_strength_threshold mc
    let raw := combined_raw_strength high medium low ultra
    let base : FinalSig :=
      if raw ≥ threshold then .BUY
      else if raw ≤ -threshold then .SELL
      else .HOLD
    let final : FinalSig :=
      match mode, base with
      | .FUTURES, .BUY => .LONG
      | .FUTURES, .SELL => .SHORT
      | _, s => s
    { signal := final, strength := |raw|, raw_strength := some raw }

/-- `self.trading_fee_rate` as set in `__init__` (line 31). -/
def trading_fee_rate : TradingMode → ℚ
  | .SPOT => 1 / 1000
  | .FUTURES => 4 / 10000

/-- Position side for futures (`self.position_side`). -/
inductive Side where
  | LONG
  | SHORT
deriving Repr, DecidableEq

/-- `calculate_profit_percentage(current_price)` (lines 710-744):
fee-adjusted, leverage-scaled unrealized profit of the open position. -/
def calculate_profit_percentage (mode : TradingMode) (side : Option Side)
    (leverage : ℚ) (in_position : Bool) (position_price current_price : ℚ) : ℚ :=
  if in_position = false ∨ position_price = 0 then 0
  else if mode = .SPOT ∨ side = some .LONG then
    let raw := (current_price - position_price) / position_price * 100
    let raw := if mode = .FUTURES then raw * leverage else raw
    raw - trading_fee_rate mode * 2 * 100
  else if side = some .SHORT then
    let raw := (position_price - current_price) / position_price * 100
    let raw := raw * leverage
    raw - trading_fee_rate mode * 2 * 100
  else 0

/-- The stop price computed by the long-position trailing-stop block of
`execute_trading_strategy` (lines 1513-1516):
`trailing_stop_pct = min(profit/2, slp) if profit > 0 else slp`;
`stop_price = max(entry*(1-slp/100), current*(1-trailing_stop_pct/100))`,
with `profit = calculate_profit_percentage(current_price)`. -/
def long_stop_price (mode : TradingMode) (leverage : ℚ)
    (entry current slp : ℚ) : ℚ :=
  let profit := calculate_profit_percentage mode (some .LONG) leverage true entry current
  let trailing_stop_pct := if profit > 0 then min (profit / 2) slp else slp
  let trailing_stop := current * (1 - trailing_stop_pct / 100)
  max (entry * (1 - slp / 100)) trailing_stop

/-- Which exit rule (if any) fires for an open LONG position in one
evaluation cycle. -/
inductive LongExit where
  | reconcileFlat
  | emergency
  | takeProfit
  | signalExit
  | trailingStop
  | hold
deriving Repr, DecidableEq

/-- The in-position LONG branch of `execute_trading_strategy` (lines
1471-1523), as the first exit rule that fires, in source order:
spot balance reconciliation, emergency exit (`profit < -slp*2`,
strict), take profit (`profit ≥ tp`), signal-driven exit
(fused SELL/SHORT at or above threshold), trailing stop
(`current ≤ stop_price`).  `real_balance` is the spot base-asset
balance fetched at line 1475 (unused in futures mode). -/
def long_position_decision (mode : TradingMode) (mc : MarketCondition)
    (leverage real_balance entry current : ℚ)
    (sig : FinalSig) (strength : ℤ) : LongExit :=
  let profit := calculate_profit_percentage mode (some .LONG) leverage true entry current
  let slp := stop_loss_percentage mc
  if mode = .SPOT ∧ real_balance < 1 / 10000 then .reconcileFlat
  else if profit < -slp * 2 then .emergency
  else if profit ≥ take_profit_percentage mc then .takeProfit
  else if (sig = .SELL ∨ sig = .SHORT) ∧ strength ≥ signal_strength_threshold mc then .signalExit
  else if current ≤ long_stop_price mode leverage entry current slp then .trailingStop
  else .hold

/-- The position-sizing block of the flat branch of
`execute_trading_strategy` (lines 1559-1575), up to and including the
75%-of-balance notional cap (before the minimum-order bump). -/
def position_size_capped (mode : TradingMode) (leverage : ℚ)
    (balance current slp : ℚ) : ℚ :=
  let risk_amount := balance * (5 / 100)
  let raw := risk_amount / (current * (slp / 100))
  let sized := if mode = .FUTURES then raw * leverage else raw
  let max_investment := balance * (75 / 100)
  if sized * current > max_investment then max_investment / current else sized

/-- The full position size (lines 1559-1581): capped size, bumped up to
the 11-quote-unit exchange minimum when below it. -/
def position_size (mode : TradingMode) (leverage : ℚ)
    (balance current slp : ℚ) : ℚ :=
  let s := position_size_capped mode leverage balance current slp
  if s * current < 11 then 11 / current else s

/-- `detect_market_condition` (lines 488-536).  The sufficient-data
computation (percent-change volatility and Bollinger-width comparison,
lines 499-522) involves floating-point standard deviations (square
roots), so it is abstracted as the parameter `computed`; the claims
settled here concern only the insufficient-data branch and the
hysteresis update.  Returns `(returned condition, new stored
condition)`: with fewer than 30 candles the source logs a warning and
returns the literal `"TRENDING"` without touching
`self.current_market_condition`; otherwise it returns the computed
condition and stores it only when it differs (lines 527-530). -/
def detect_market_condition (computed : MarketCondition) (numKlines : ℕ)
    (current : MarketCondition) : MarketCondition × MarketCondition :=
  if numKlines < 30 then (.TRENDING, current)
  else if computed ≠ current then (computed, computed)
  else (computed, current)

/-- Values of `self.last_action`. -/
inductive LastAction where
  | buy
  | sell
  | long
  | short
  | close_long
  | close_short
deriving Repr, DecidableEq

/-- The persisted position state of the bot (the fields of
`save_state`/`load_state` that the position-management operations
mutate). -/
structure BotState where
  trading_mode : TradingMode
  in_position : Bool
  position_price : ℚ
  position_amount : ℚ
  position_side : Option Side
  last_action : Option LastAction
  last_action_price : ℚ
deriving Repr, DecidableEq

/-- The state of a freshly constructed bot (`__init__`, lines 25-30). -/
def initState (m : TradingMode) : BotState :=
  { trading_mode := m, in_position := false, position_price := 0,
    position_amount := 0, position_side := none, last_action := none,
    last_action_price := 0 }

/-- `buy` success path (lines 860-884): position opened with the
extracted fill price/quantity; futures side set to LONG (spot leaves
`position_side` untouched); rejected without mutation when a futures
SHORT position is open (lines 819-821). -/
def buy_fill (s : BotState) (fill_price fill_qty : ℚ) : BotState :=
  if s.trading_mode = .FUTURES ∧ s.in_position ∧ s.position_side = some .SHORT then s
  else
    { s with
        in_position := true
        position_price := fill_price
        position_amount := fill_qty
        position_side := if s.trading_mode = .FUTURES then some .LONG else s.position_side
        last_action := some (if s.trading_mode = .FUTURES then .long else .buy)
        last_action_price := fill_price }

/-- `buy` success path followed by the spot balance double-check (lines
889-895): on a >1% discrepancy the tracked amount is corrected to the
minimum of fill and actual balance.  In futures mode the check is not
executed. -/
def buy_fill_reconciled (s : BotState) (fill_price fill_qty actual_balance : ℚ) : BotState :=
  let s' := buy_fill s fill_price fill_qty
  if s.trading_mode = .SPOT ∧ |actual_balance - fill_qty| > fill_qty * (1 / 100) then
    { s' with position_amount := min fill_qty actual_balance }
  else s'

/-- `buy` fallback path (lines 899-934), when the fill fields could not
be extracted: position opened at the requested price; the amount is the
re-queried spot balance (line 904-906) or, in futures, the requested
quantity (line 908-910) — both passed here as `fallback_qty`. -/
def buy_fallback (s : BotState) (req_price fallback_qty : ℚ) : BotState :=
  if s.trading_mode = .FUTURES ∧ s.in_position ∧ s.position_side = some .SHORT then s
  else
    { s with
        in_position := true
        position_price := req_price
        position_amount := fallback_qty
        position_side := if s.trading_mode = .FUTURES then some .LONG else s.position_side
        last_action := some (if s.trading_mode = .FUTURES then .long else .buy)
        last_action_price := req_price }

/-- Common guard of all `sell` paths (lines 948-955): must be in
position, and in futures the side must be LONG. -/
def sell_guard (s : BotState) : Prop :=
  s.in_position = true ∧ (s.trading_mode = .FUTURES → s.position_side = some .LONG)

instance (s : BotState) : Decidable (sell_guard s) := by
  unfold sell_guard; infer_instance

/-- `sell` success (or bookkeeping-fallback) path, final state update
(lines 1102-1107): position closed, side cleared only in futures,
`position_amount` left untouched, `last_action_price` set to the
requested price. -/
def sell_fill (s : BotState) (req_price : ℚ) : BotState :=
  if sell_guard s then
    { s with
        in_position := false
        last_action := some (if s.trading_mode = .SPOT then .sell else .close_long)
        last_action_price := req_price
        position_side := if s.trading_mode = .FUTURES then none else s.position_side }
  else s

/-- `sell` early exit in spot mode when the live base-asset balance is
below 0.0001 (lines 965-969): only `in_position` is cleared. -/
def sell_spot_low_balance (s : BotState) (real_balance : ℚ) : BotState :=
  if sell_guard s ∧ s.trading_mode = .SPOT ∧ real_balance < 1 / 10000 then
    { s with in_position := false }
  else s

/-- `sell` early exit in futures mode when the tracked position amount
is not positive (lines 973-978): `in_position` cleared and side
cleared. -/
def sell_futures_zero_amount (s : BotState) : BotState :=
  if sell_guard s ∧ s.trading_mode = .FUTURES ∧ s.position_amount ≤ 0 then
    { s with in_position := false, position_side := none }
  else s

/-- `sell` early exit when the precision-adjusted quantity came out
non-positive (lines 1002-1006): only `in_position` is cleared — the
side is NOT cleared, even in futures mode.  Reachable in futures when
the exchange lot-size step floors a small position amount to zero. -/
def sell_zero_adjusted_qty (s : BotState) : BotState :=
  if sell_guard s then { s with in_position := false } else s

/-- `sell` exception path on an exchange-reported insufficient-balance
error (lines 1113-1117): position assumed closed externally. -/
def sell_api_insufficient_balance (s : BotState) : BotState :=
  if sell_guard s then { s with in_position := false, position_side := none }
  else s

/-- `short` success path (lines 1218-1239; the extraction-fallback of
lines 1241-1264 sets the same fields with the requested values):
futures only; rejected without mutation when a LONG position is open
(lines 1161-1163). -/
def short_fill (s : BotState) (fill_price fill_qty : ℚ) : BotState :=
  if s.trading_mode = .FUTURES ∧ ¬(s.in_position = true ∧ s.position_side = some .LONG) then
    { s with
        in_position := true
        position_price := fill_price
        position_amount := fill_qty
        position_side := some .SHORT
        last_action := some .short
        last_action_price := fill_price }
  else s

/-- `close_short` success (or bookkeeping-fallback) path, final update
(lines 1386-1391): futures only, requires an open SHORT position
(lines 1282-1284); `position_amount` left untouched. -/
def close_short_fill (s : BotState) (req_price : ℚ) : BotState :=
  if s.trading_mode = .FUTURES ∧ s.in_position = true ∧ s.position_side = some .SHORT then
    { s with
        in_position := false
        position_side := none
        last_action := some .close_short
        last_action_price := req_price }
  else s

/-- The reconciliation at the top of the in-position branch of
`execute_trading_strategy` (lines 1473-1482): in spot mode, a
near-zero live balance while the state says "in position" forces the
state to flat. -/
def reconcile_flat (s : BotState) (real_balance : ℚ) : BotState :=
  if s.trading_mode = .SPOT ∧ real_balance < 1 / 10000 ∧ s.in_position = true then
    { s with in_position := false, position_side := none }
  else s

/-- One observable position-state operation, with its
externally-determined data (fill prices/quantities, live balances).
`rejected` stands for every early-return path that performs no state
mutation (minimum-notional and balance rejections, guard rejections,
API exceptions other than the modelled insufficient-balance one). -/
inductive Event where
  | rejected
  | buy_fill (fill_price fill_qty : ℚ)
  | buy_fill_reconciled (fill_price fill_qty actual_balance : ℚ)
  | buy_fallback (req_price fallback_qty : ℚ)
  | sell_fill (req_price : ℚ)
  | sell_spot_low_balance (real_balance : ℚ)
  | sell_futures_zero_amount
  | sell_zero_adjusted_qty
  | sell_api_insufficient_balance
  | short_fill (fill_price fill_qty : ℚ)
  | close_short_fill (req_price : ℚ)
  | reconcile_flat (real_balance : ℚ)
deriving Repr, DecidableEq

/-- Apply one operation to the position state. -/
def applyEvent (s : BotState) : Event → BotState
  | .rejected => s
  | .buy_fill p q => buy_fill s p q
  | .buy_fill_reconciled p q b => buy_fill_reconciled s p q b
  | .buy_fallback p q => buy_fallback s p q
  | .sell_fill p => sell_fill s p
  | .sell_spot_low_balance b => sell_spot_low_balance s b
  | .sell_futures_zero_amount => sell_futures_zero_amount s
  | .sell_zero_adjusted_qty => sell_zero_adjusted_qty s
  | .sell_api_insufficient_balance => sell_api_insufficient_balance s
  | .short_fill p q => short_fill s p q
  | .close_short_fill p => close_short_fill s p
  | .reconcile_flat b => reconcile_flat s b

/-- The position-state invariant as stated by the spec:
`inPosition == false ⇒ side == null ∧ quantity == 0`. -/
def SpecInvariant (s : BotState) : Prop :=
  s.in_position = false → s.position_side = none ∧ s.position_amount = 0

/-- The invariant the code actually maintains: when flat the side is
null, and in spot mode the side is always null (the spot code never
assigns `position_side`). -/
def SideInvariant (s : BotState) : Prop :=
  (s.in_position = false → s.position_side = none) ∧
  (s.trading_mode = .SPOT → s.position_side = none)

/-! ## Theorems -/

/-- C3 counterexample: with quoteBalance=1000, stopLossPct=1.0,
price=50000, the computed size is 0.015 (= 3/200), not the claimed 0.1:
the 75%-of-balance notional cap (750) does bind against the raw
notional of 5000. -/
theorem c3_counterexample :
    position_size .SPOT 1 1000 50000 1 = 3 / 200 ∧ (3 / 200 : ℚ) ≠ 1 / 10 := by
  constructor
  · norm_num [position_size, position_size_capped]
  · norm_num

/-- C3 (amended): entry sizing computes
`rawSize = (balance * 0.05) / (price * slp/100)`, multiplies by
leverage in futures mode, and caps the notional at `0.75 * balance`;
in the scenario (balance=1000, slp=1.0, price=50000) the raw size is
0.1 with notional 5000, the cap binds at 750, and the final size is
0.015. -/
theorem c3_position_sizing_amended :
    (∀ (mode : TradingMode) (lev balance cur slp : ℚ), 0 < cur →
        position_size_capped mode lev balance cur slp * cur ≤ balance * (75 / 100)) ∧
    ((1000 * (5 / 100)) / (50000 * ((1 : ℚ) / 100)) = 1 / 10) ∧
    ((1 : ℚ) / 10) * 50000 > 1000 * (75 / 100) ∧
    position_size .SPOT 1 1000 50000 1 = 3 / 200 := by
  refine ⟨?_, by norm_num, by norm_num, by norm_num [position_size, position_size_capped]⟩
  intro mode lev balance cur slp hcur
  have key : ∀ raw : ℚ,
      (if raw * cur > balance * (75 / 100) then balance * (75 / 100) / cur else raw) * cur ≤
        balance * (75 / 100) := by
    intro raw
    split
    · rw [div_mul_cancel₀ _ hcur.ne']
    · next h => exact le_of_not_gt h
  simp only [position_size_capped]
  exact key _

/-- C3 witness: the notional cap, instantiated at the scenario. -/
theorem c3_witness :
    position_size_capped .SPOT 1 1000 50000 1 * 50000 ≤ 1000 * (75 / 100) :=
  c3_position_sizing_amended.1 .SPOT 1 1000 50000 1 (by norm_num)

/-- C4 counterexample: with the stored regime RANGING and only 10
candles of 4h history, `detect_market_condition` returns the literal
TRENDING default, not the previously held regime. -/
theorem c4_counterexample :
    detect_market_condition .RANGING 10 .RANGING = (.TRENDING, .RANGING) ∧
    MarketCondition.TRENDING ≠ MarketCondition.RANGING := by
  constructor
  · norm_num [detect_market_condition]
  · decide

/-- C4 (amended): for every call with insufficient higher-timeframe
history (fewer than 30 candles, including none), the classifier
returns the fixed default TRENDING — not the previously held regime —
and leaves the stored regime unchanged; it does not fail. -/
theorem c4_insufficient_data_default_amended
    (computed : MarketCondition) (n : ℕ) (current : MarketCondition) (h : n < 30) :
    detect_market_condition computed n current = (.TRENDING, current) := by
  unfold detect_market_condition
  rw [if_pos h]

/-- C4 witness. -/
theorem c4_witness :
    detect_market_condition .RANGING 0 .RANGING = (.TRENDING, .RANGING) :=
  c4_insufficient_data_default_amended .RANGING 0 .RANGING (by norm_num)

/-- C2 counterexample: at a computed profit of exactly
−2×stopLossPct (entry 100, price 97.2, stopLossPct 1.5, spot fees
0.2% round trip: profit = −3), the emergency check — a strict `<` in
the source — does not fire; the cycle instead exits through the
trailing stop.  The claimed `≤` trigger is therefore wrong at the
boundary. -/
theorem c2_counterexample :
    calculate_profit_percentage .SPOT (some .LONG) 1 true 100 (486 / 5) = -3 ∧
    (-3 : ℚ) ≤ -(stop_loss_percentage .TRENDING) * 2 ∧
    long_position_decision .SPOT .TRENDING 1 1 100 (486 / 5) .HOLD 0 ≠ .emergency := by
  refine ⟨by norm_num [calculate_profit_percentage, trading_fee_rate],
    by norm_num [stop_loss_percentage], ?_⟩
  have : long_position_decision .SPOT .TRENDING 1 1 100 (486 / 5) .HOLD 0 = .trailingStop := by
    norm_num [long_position_decision, calculate_profit_percentage, trading_fee_rate,
      stop_loss_percentage, take_profit_percentage, signal_strength_threshold, long_stop_price]
  rw [this]
  decide

/-- C2 (amended): whenever the computed profit is strictly below
−2×stopLossPct, the in-position LONG branch takes the emergency exit,
regardless of the fused signal, its strength, the take-profit setting
and the trailing stop (the emergency check is evaluated first, right
after the spot balance reconciliation, which must not intervene). -/
theorem c2_emergency_exit_amended (mode : TradingMode) (mc : MarketCondition)
    (lev rb entry cur : ℚ) (sig : FinalSig) (strength : ℤ)
    (hrb : ¬(mode = .SPOT ∧ rb < 1 / 10000))
    (hprofit : calculate_profit_percentage mode (some .LONG) lev true entry cur <
      -(stop_loss_percentage mc) * 2) :
    long_position_decision mode mc lev rb entry cur sig strength = .emergency := by
  unfold long_position_decision
  rw [if_neg hrb, if_pos hprofit]

/-- C2 witness (Scenario C): LONG entered at 100, price drifts to 97
with stopLossPct 1.5 in spot mode: profit is −3.2 < −3 and the cycle
takes the emergency exit even with a HOLD fused signal. -/
theorem c2_witness :
    long_position_decision .SPOT .TRENDING 1 5 100 97 .HOLD 0 = .emergency :=
  c2_emergency_exit_amended .SPOT .TRENDING 1 5 100 97 .HOLD 0
    (by norm_num)
    (by norm_num [calculate_profit_percentage, trading_fee_rate, stop_loss_percentage])

/-- C1 counterexample: open a spot position (fill 2 units at 100) and
close it; the resulting state has `in_position = false` but
`position_amount = 2` — the close never resets the quantity, so the
claimed invariant `inPosition == false ⇒ side == null ∧ quantity == 0`
fails at an observation point reached by buy-then-sell. -/
theorem c1_counterexample :
    (applyEvent (applyEvent (initState .SPOT) (.buy_fill 100 2)) (.sell_fill 100)).in_position
      = false ∧
    (applyEvent (applyEvent (initState .SPOT) (.buy_fill 100 2)) (.sell_fill 100)).position_amount
      = 2 ∧
    ¬ SpecInvariant (applyEvent (applyEvent (initState .SPOT) (.buy_fill 100 2)) (.sell_fill 100)) := by
  have h1 : applyEvent (initState .SPOT) (.buy_fill 100 2) =
      { trading_mode := .SPOT, in_position := true, position_price := 100,
        position_amount := 2, position_side := none, last_action := some .buy,
        last_action_price := 100 } := by
    simp [applyEvent, buy_fill, initState]
  rw [h1]
  refine ⟨?_, ?_, ?_⟩ <;>
    simp [applyEvent, sell_fill, sell_guard, SpecInvariant]

/-- C1 (amended): the initial state satisfies the side half of the
invariant (`inPosition == false ⇒ side == null`, plus: in spot mode the
side is always null), and every modelled operation outcome preserves
it — with one exception the counterexample analysis exposed: the
`sell` early exit on a zero precision-adjusted quantity clears
`in_position` without clearing the side, so it preserves the invariant
only in spot mode.  The quantity half of the claimed invariant does
not hold (see the counterexample): no close path resets
`position_amount`. -/
theorem c1_position_invariant_amended :
    (∀ m : TradingMode, SideInvariant (initState m)) ∧
    (∀ (s : BotState) (e : Event), SideInvariant s →
      (e = .sell_zero_adjusted_qty → s.trading_mode = .SPOT) →
      SideInvariant (applyEvent s e)) := by
  constructor
  · intro m
    exact ⟨fun _ => rfl, fun _ => rfl⟩
  · rintro ⟨mode, ip, pp, pa, ps, la, lap⟩ e ⟨h1, h2⟩ hexc
    simp only at h1 h2
    cases mode <;> cases e <;>
      simp_all only [applyEvent, buy_fill, buy_fill_reconciled, buy_fallback, sell_fill,
        sell_spot_low_balance, sell_futures_zero_amount, sell_zero_adjusted_qty,
        sell_api_insufficient_balance, short_fill, close_short_fill, reconcile_flat,
        sell_guard, SideInvariant, forall_true_left] <;>
      (try split_ifs) <;>
      simp_all

/-- C1 witness: preservation applied at a concrete state and event. -/
theorem c1_witness :
    SideInvariant (applyEvent (initState .FUTURES) (.short_fill 100 2)) :=
  c1_position_invariant_amended.2 (initState .FUTURES) (.short_fill 100 2)
    ⟨fun _ => rfl, fun h => TradingMode.noConfusion h⟩
    (fun h => Event.noConfusion h)

/-- Helper: both regime thresholds are positive. -/
theorem threshold_pos (mc : MarketCondition) : 0 < signal_strength_threshold mc := by
  cases mc <;> decide

/-- Helper: the fused result's `raw_strength` is either the sentinel
`none` or exactly the signed accumulator. -/
theorem generate_raw_strength_eq (mode : TradingMode) (mc : MarketCondition)
    (h m l u : TfResult) :
    (generate_combined_signal mode mc h m l u).raw_strength = none ∨
    (generate_combined_signal mode mc h m l u).raw_strength =
      some (combined_raw_strength h m l u) := by
  simp only [generate_combined_signal]
  split_ifs <;> simp

/-- Helper: when a fast-timeframe BUY vote enters the buy-scoring
branch, the accumulator is between 0 and 14 (entry contributes at
least +2, every other buy-branch term is non-negative except the −2
contradiction penalty). -/
theorem combined_raw_strength_buy_bounds (h m l u : TfResult)
    (hv : u.signal = .BUY ∨ l.signal = .BUY) :
    0 ≤ combined_raw_strength h m l u ∧ combined_raw_strength h m l u ≤ 14 := by
  have t1 : 0 ≤ (if u.signal = .BUY then (3 : ℤ) else 0) ∧
      (if u.signal = .BUY then (3 : ℤ) else 0) ≤ 3 := by split <;> omega
  have t2 : 0 ≤ (if l.signal = .BUY then (2 : ℤ) else 0) ∧
      (if l.signal = .BUY then (2 : ℤ) else 0) ≤ 2 := by split <;> omega
  have t3 : 0 ≤ (if u.golden_cross then (2 : ℤ) else 0) ∧
      (if u.golden_cross then (2 : ℤ) else 0) ≤ 2 := by split <;> omega
  have t4 : 0 ≤ (if l.golden_cross then (1 : ℤ) else 0) ∧
      (if l.golden_cross then (1 : ℤ) else 0) ≤ 1 := by split <;> omega
  have t5 : 0 ≤ (if m.trend = .BULLISH then (1 : ℤ) else 0) ∧
      (if m.trend = .BULLISH then (1 : ℤ) else 0) ≤ 1 := by split <;> omega
  have t6 : 0 ≤ (if h.trend = .BULLISH then (2 : ℤ) else 0) ∧
      (if h.trend = .BULLISH then (2 : ℤ) else 0) ≤ 2 := by split <;> omega
  have t7 : 0 ≤ (if m.signal = .BUY then (1 : ℤ) else 0) ∧
      (if m.signal = .BUY then (1 : ℤ) else 0) ≤ 1 := by split <;> omega
  have t8 : 0 ≤ (if u.j_oversold then (2 : ℤ) else if l.j_oversold then 1 else 0) ∧
      (if u.j_oversold then (2 : ℤ) else if l.j_oversold then 1 else 0) ≤ 2 := by
    split
    · omega
    · split <;> omega
  have t9 : -2 ≤ (if h.trend = .BEARISH then (-2 : ℤ) else 0) ∧
      (if h.trend = .BEARISH then (-2 : ℤ) else 0) ≤ 0 := by split <;> omega
  have entry : (if u.signal = .BUY then (3 : ℤ) else 0) = 3 ∨
      (if l.signal = .BUY then (2 : ℤ) else 0) = 2 := by
    rcases hv with hu | hl
    · exact Or.inl (if_pos hu)
    · exact Or.inr (if_pos hl)
  unfold combined_raw_strength
  rw [if_pos hv]
  rcases entry with he | he <;> omega

/-- Helper: when no fast-timeframe BUY vote is present the accumulator
is between −14 and 0 (the sell-scoring branch only subtracts, apart
from the +2 contradiction penalty, and the no-branch case is 0). -/
theorem combined_raw_strength_nonpos_bounds (h m l u : TfResult)
    (hu : u.signal ≠ .BUY) (hl : l.signal ≠ .BUY) :
    -14 ≤ combined_raw_strength h m l u ∧ combined_raw_strength h m l u ≤ 0 := by
  have t1 : -3 ≤ (if u.signal = .SELL then (-3 : ℤ) else 0) ∧
      (if u.signal = .SELL then (-3 : ℤ) else 0) ≤ 0 := by split <;> omega
  have t2 : -2 ≤ (if l.signal = .SELL then (-2 : ℤ) else 0) ∧
      (if l.signal = .SELL then (-2 : ℤ) else 0) ≤ 0 := by split <;> omega
  have t3 : -2 ≤ (if u.death_cross then (-2 : ℤ) else 0) ∧
      (if u.death_cross then (-2 : ℤ) else 0) ≤ 0 := by split <;> omega
  have t4 : -1 ≤ (if l.death_cross then (-1 : ℤ) else 0) ∧
      (if l.death_cross then (-1 : ℤ) else 0) ≤ 0 := by split <;> omega
  have t5 : -1 ≤ (if m.trend = .BEARISH then (-1 : ℤ) else 0) ∧
      (if m.trend = .BEARISH then (-1 : ℤ) else 0) ≤ 0 := by split <;> omega
  have t6 : -2 ≤ (if h.trend = .BEARISH then (-2 : ℤ) else 0) ∧
      (if h.trend = .BEARISH then (-2 : ℤ) else 0) ≤ 0 := by split <;> omega
  have t7 : -1 ≤ (if m.signal = .SELL then (-1 : ℤ) else 0) ∧
      (if m.signal = .SELL then (-1 : ℤ) else 0) ≤ 0 := by split <;> omega
  have t8 : -2 ≤ (if u.j_overbought then (-2 : ℤ) else if l.j_overbought then -1 else 0) ∧
      (if u.j_overbought then (-2 : ℤ) else if l.j_overbought then -1 else 0) ≤ 0 := by
    split
    · omega
    · split <;> omega
  have t9 : 0 ≤ (if h.trend = .BULLISH then (2 : ℤ) else 0) ∧
      (if h.trend = .BULLISH then (2 : ℤ) else 0) ≤ 2 := by split <;> omega
  unfold combined_raw_strength
  rw [if_neg (by tauto)]
  split
  · next hsell =>
      have entry : (if u.signal = .SELL then (-3 : ℤ) else 0) = -3 ∨
          (if l.signal = .SELL then (-2 : ℤ) else 0) = -2 := by
        rcases hsell with hus | hls
        · exact Or.inl (if_pos hus)
        · exact Or.inr (if_pos hls)
      rcases entry with he | he <;> omega
  · omega

/-- Helper: a non-negative accumulator can never produce a SELL/SHORT
fused signal (the SELL decision needs `raw ≤ -threshold` with a
positive threshold). -/
theorem generate_signal_of_raw_nonneg (mode : TradingMode) (mc : MarketCondition)
    (h m l u : TfResult) (hnn : 0 ≤ combined_raw_strength h m l u) :
    (generate_combined_signal mode mc h m l u).signal ≠ .SELL ∧
    (generate_combined_signal mode mc h m l u).signal ≠ .SHORT := by
  have hth := threshold_pos mc
  simp only [generate_combined_signal]
  split_ifs with he h1 h2
  · simp
  · cases mode <;> simp
  · omega
  · cases mode <;> simp

/-- Helper: a non-positive accumulator can never produce a BUY/LONG
fused signal. -/
theorem generate_signal_of_raw_nonpos (mode : TradingMode) (mc : MarketCondition)
    (h m l u : TfResult) (hnp : combined_raw_strength h m l u ≤ 0) :
    (generate_combined_signal mode mc h m l u).signal ≠ .BUY ∧
    (generate_combined_signal mode mc h m l u).signal ≠ .LONG := by
  have hth := threshold_pos mc
  simp only [generate_combined_signal]
  split_ifs with he h1 h2
  · simp
  · omega
  · cases mode <;> simp
  · cases mode <;> simp

/-- C6: the fuser fails soft to HOLD with strength 0 exactly when the
5m or 15m vote is UNDEFINED (those timeframes are required); when both
fast votes are defined it always produces a scored signal carrying the
signed accumulator, regardless of the 1h/4h results (their degradation
to UNDEFINED is tolerated: an UNDEFINED trend simply matches none of
the scoring conditions). -/
theorem c6_fuser_undefined_guard (mode : TradingMode) (mc : MarketCondition)
    (h m l u : TfResult) :
    ((u.signal = .UNDEFINED ∨ l.signal = .UNDEFINED) →
      generate_combined_signal mode mc h m l u =
        { signal := .HOLD, strength := 0, raw_strength := none }) ∧
    (u.signal ≠ .UNDEFINED → l.signal ≠ .UNDEFINED →
      (generate_combined_signal mode mc h m l u).raw_strength =
        some (combined_raw_strength h m l u)) := by
  constructor
  · intro hu
    unfold generate_combined_signal
    rw [if_pos hu.symm]
  · intro hu hl
    unfold generate_combined_signal
    rw [if_neg (by tauto)]

/-- C6 witness: an UNDEFINED 5m vote forces the HOLD/0 early return. -/
theorem c6_witness :
    generate_combined_signal .SPOT .TRENDING undefinedTfResult undefinedTfResult
      undefinedTfResult undefinedTfResult =
      { signal := .HOLD, strength := 0, raw_strength := none } :=
  (c6_fuser_undefined_guard .SPOT .TRENDING undefinedTfResult undefinedTfResult
      undefinedTfResult undefinedTfResult).1 (Or.inl rfl)

/-- C7 counterexample: with every buy-side condition active on all
four timeframes (fast BUY votes, golden crosses, oversold J, bullish
1h/4h trends, 1h BUY vote) the accumulator reaches 14 and the reported
strength is 14, outside the claimed 0..10 range. -/
theorem c7_counterexample :
    (generate_combined_signal .SPOT .TRENDING
        ⟨.BUY, .BULLISH, true, false, false, true, none, none, none⟩
        ⟨.BUY, .BULLISH, true, false, false, true, none, none, none⟩
        ⟨.BUY, .BULLISH, true, false, false, true, none, none, none⟩
        ⟨.BUY, .BULLISH, true, false, false, true, none, none, none⟩).strength = 14 ∧
    ¬((14 : ℤ) ≤ 10) := by
  decide

/-- C7 (amended): whenever the fuser returns a scored signal, its
reported strength is exactly the absolute value of the signed raw
accumulator, and lies in 0..14 (not 0..10: the buy side can sum to
3+2+2+1+1+2+1+2 = 14, mirrored on the sell side). -/
theorem c7_strength_abs_bound_amended (mode : TradingMode) (mc : MarketCondition)
    (h m l u : TfResult) (r : ℤ)
    (hr : (generate_combined_signal mode mc h m l u).raw_strength = some r) :
    (generate_combined_signal mode mc h m l u).strength = |r| ∧ |r| ≤ 14 := by
  have hraw : (generate_combined_signal mode mc h m l u).raw_strength =
      some (combined_raw_strength h m l u) := by
    rcases generate_raw_strength_eq mode mc h m l u with hn | hs
    · rw [hn] at hr; cases hr
    · exact hs
  rw [hraw] at hr
  obtain rfl : combined_raw_strength h m l u = r := by
    injection hr
  constructor
  · have he : ¬(l.signal = .UNDEFINED ∨ u.signal = .UNDEFINED) := by
      intro hearly
      unfold generate_combined_signal at hraw
      rw [if_pos hearly] at hraw
      simp at hraw
    unfold generate_combined_signal
    rw [if_neg he]
  · by_cases hb : u.signal = .BUY ∨ l.signal = .BUY
    · obtain ⟨h0, h14⟩ := combined_raw_strength_buy_bounds h m l u hb
      rw [abs_of_nonneg h0]; exact h14
    · push_neg at hb
      obtain ⟨h14, h0⟩ := combined_raw_strength_nonpos_bounds h m l u hb.1 hb.2
      rw [abs_of_nonpos h0]; omega

/-- C7 witness: the all-bull input scores raw 14, reported 14 = |14| ≤ 14. -/
theorem c7_witness :
    (generate_combined_signal .SPOT .TRENDING
        ⟨.BUY, .BULLISH, true, false, false, true, none, none, none⟩
        ⟨.BUY, .BULLISH, true, false, false, true, none, none, none⟩
        ⟨.BUY, .BULLISH, true, false, false, true, none, none, none⟩
        ⟨.BUY, .BULLISH, true, false, false, true, none, none, none⟩).strength = |(14 : ℤ)| ∧
    |(14 : ℤ)| ≤ 14 :=
  c7_strength_abs_bound_amended .SPOT .TRENDING _ _ _ _ 14 (by decide)

/-- C10: the fused signal never opposes the fast timeframes.  If the
5m or 15m vote is BUY, the accumulator (when scored) is ≥ 0 and the
final signal is never SELL or SHORT; if neither fast vote is BUY and
at least one is SELL, the accumulator is ≤ 0 and the final signal is
never BUY or LONG — the in-branch ±2 contradiction penalty cannot flip
the sign past the opposite threshold. -/
theorem c10_no_fast_opposition (mode : TradingMode) (mc : MarketCondition)
    (h m l u : TfResult) :
    ((u.signal = .BUY ∨ l.signal = .BUY) →
      ((generate_combined_signal mode mc h m l u).signal ≠ .SELL ∧
        (generate_combined_signal mode mc h m l u).signal ≠ .SHORT) ∧
      (∀ r, (generate_combined_signal mode mc h m l u).raw_strength = some r → 0 ≤ r)) ∧
    (u.signal ≠ .BUY → l.signal ≠ .BUY → (u.signal = .SELL ∨ l.signal = .SELL) →
      ((generate_combined_signal mode mc h m l u).signal ≠ .BUY ∧
        (generate_combined_signal mode mc h m l u).signal ≠ .LONG) ∧
      (∀ r, (generate_combined_signal mode mc h m l u).raw_strength = some r → r ≤ 0)) := by
  constructor
  · intro hv
    have hb := combined_raw_strength_buy_bounds h m l u hv
    refine ⟨generate_signal_of_raw_nonneg mode mc h m l u hb.1, ?_⟩
    intro r hr
    rcases generate_raw_strength_eq mode mc h m l u with hn | hs
    · rw [hn] at hr; cases hr
    · rw [hs] at hr
      obtain rfl : combined_raw_strength h m l u = r := by injection hr
      exact hb.1
  · intro hu hl _
    have hb := combined_raw_strength_nonpos_bounds h m l u hu hl
    refine ⟨generate_signal_of_raw_nonpos mode mc h m l u hb.2, ?_⟩
    intro r hr
    rcases generate_raw_strength_eq mode mc h m l u with hn | hs
    · rw [hn] at hr; cases hr
    · rw [hs] at hr
      obtain rfl : combined_raw_strength h m l u = r := by injection hr
      exact hb.2

/-- C10 witness: with a lone 15m BUY vote and a bearish 4h trend (the
penalty active), the fused signal is still not SELL/SHORT. -/
theorem c10_witness :
    (generate_combined_signal .FUTURES .TRENDING
        ⟨.HOLD, .BEARISH, false, false, false, false, none, none, none⟩
        ⟨.HOLD, .NEUTRAL, false, false, false, false, none, none, none⟩
        ⟨.BUY, .NEUTRAL, false, false, false, false, none, none, none⟩
        ⟨.HOLD, .NEUTRAL, false, false, false, false, none, none, none⟩).signal ≠ .SELL ∧
    (generate_combined_signal .FUTURES .TRENDING
        ⟨.HOLD, .BEARISH, false, false, false, false, none, none, none⟩
        ⟨.HOLD, .NEUTRAL, false, false, false, false, none, none, none⟩
        ⟨.BUY, .NEUTRAL, false, false, false, false, none, none, none⟩
        ⟨.HOLD, .NEUTRAL, false, false, false, false, none, none, none⟩).signal ≠ .SHORT :=
  ((c10_no_fast_opposition .FUTURES .TRENDING _ _ _ _).1 (Or.inr rfl)).1

/-- Helper: exponential smoothing preserves list length. -/
theorem ewmAux_length (a : ℚ) (p : ℚ) (xs : List ℚ) :
    (ewmAux a p xs).length = xs.length := by
  induction xs generalizing p with
  | nil => rfl
  | cons x t ih => simp [ewmAux, ih]

/-- Helper: `ewm` preserves list length. -/
theorem ewm_length (span : ℕ) (xs : List ℚ) : (ewm span xs).length = xs.length := by
  cases xs with
  | nil => rfl
  | cons x t => simp [ewm, ewmAux_length]

/-- Helper: the RSV column has one entry per candle. -/
theorem rsvList_length (k : ℕ) (cs : List Candle) : (rsvList k cs).length = cs.length := by
  simp [rsvList]

/-- Helper: every indicator column of `calculate_kdj` has one entry
per candle — the engine is total, whatever the candle count. -/
theorem calculate_kdj_lengths (cs : List Candle) (kp ks ds : ℕ) :
    (calculate_kdj cs kp ks ds).K.length = cs.length ∧
    (calculate_kdj cs kp ks ds).D.length = cs.length ∧
    (calculate_kdj cs kp ks ds).J.length = cs.length := by
  have hK : (calculate_kdj cs kp ks ds).K.length = cs.length := by
    simp [calculate_kdj, ewm_length, rsvList_length]
  have hD : (calculate_kdj cs kp ks ds).D.length = cs.length := by
    simp [calculate_kdj, ewm_length, rsvList_length]
  refine ⟨hK, hD, ?_⟩
  simp only [calculate_kdj] at hK hD ⊢
  simp [List.length_zipWith, hK, hD]

/-- C8 counterexample: three constant candles with kPeriod 9 (so the
candle count 3 is far below kPeriod+2 = 11): `calculate_indicators`
does not fail — the warm-up NaNs are all replaced by 50 via
`fillna(50)` — and the signal classifier silently returns a defined
HOLD signal with K = D = J = 50. -/
theorem c8_counterexample :
    analyze_kdj_signals (calculate_indicators
        [⟨5, 5, 5⟩, ⟨5, 5, 5⟩, ⟨5, 5, 5⟩] (9, 3, 3)) =
      { signal := .HOLD, trend := .NEUTRAL, golden_cross := false, death_cross := false,
        j_overbought := false, j_oversold := false,
        K := some 50, D := some 50, J := some 50 } ∧
    3 < 9 + 2 := by
  have hr : List.range 3 = [0, 1, 2] := rfl
  have hframe : calculate_indicators [⟨5, 5, 5⟩, ⟨5, 5, 5⟩, ⟨5, 5, 5⟩] (9, 3, 3) =
      { rsv := [50, 50, 50], K := [50, 50, 50], D := [50, 50, 50], J := [50, 50, 50],
        SMA := [none, none, none] } := by
    norm_num [calculate_indicators, calculate_kdj, rsvList, rsvAt, rollingMin, rollingMax,
      rollingMean, window, listMin, listMax, optToPFloat, PFloat.sub, PFloat.div,
      PFloat.mulPos, PFloat.filled, ewm, ewmAux, hr]
  rw [hframe]
  refine ⟨?_, by norm_num⟩
  norm_num [analyze_kdj_signals, List.getD]

/-- C8 (amended): the indicator engine never fails on short inputs —
there is no InsufficientData check anywhere in
`calculate_indicators`: it is total, producing one K/D/J row per
candle for every candle count (warm-up NaNs become the neutral 50),
and the downstream classifier degrades to the UNDEFINED sentinel
exactly when the candle count is below 2 — not below kPeriod+2. -/
theorem c8_no_insufficient_error_amended (cs : List Candle) (params : ℕ × ℕ × ℕ) :
    (calculate_indicators cs params).K.length = cs.length ∧
    ((analyze_kdj_signals (calculate_indicators cs params)).signal = .UNDEFINED ↔
      cs.length < 2) := by
  have hlen : (calculate_indicators cs params).K.length = cs.length :=
    (calculate_kdj_lengths cs params.1 params.2.1 params.2.2).1
  refine ⟨hlen, ?_⟩
  simp only [analyze_kdj_signals]
  rw [hlen]
  split_ifs with h2
  · simp [undefinedTfResult, h2]
  all_goals simp [h2]

/-- C8 witness: at candle count 2 (below kPeriod+2 for every allowed
kPeriod ≥ 3) the classifier output is nonetheless defined. -/
theorem c8_witness :
    (analyze_kdj_signals (calculate_indicators
        [⟨5, 5, 5⟩, ⟨6, 4, 5⟩] (9, 3, 3))).signal = .UNDEFINED ↔
      ([⟨5, 5, 5⟩, ⟨6, 4, 5⟩] : List Candle).length < 2 :=
  (c8_no_insufficient_error_amended [⟨5, 5, 5⟩, ⟨6, 4, 5⟩] (9, 3, 3)).2

/-- C9: at every index whose rolling window is complete and has zero
price range (window max of highs equals window min of lows), the RSV
value is the neutral 50 — whether the float division produced NaN
(numerator 0) or ±inf (numerator nonzero), the
`replace([inf,-inf],nan).fillna(50)` pipeline maps it to 50 — no
exception is raised, and the K/D/J columns stay total (finite ℚ
values, one per candle). -/
theorem c9_rsv_neutral_on_zero_range (k_period k_smooth d_smooth : ℕ)
    (cs : List Candle) (i : ℕ) (hk : k_period ≤ i + 1)
    (hz : listMax (window k_period i (cs.map Candle.high)) =
      listMin (window k_period i (cs.map Candle.low))) :
    rsvAt k_period cs i = 50 ∧
    (calculate_kdj cs k_period k_smooth d_smooth).K.length = cs.length ∧
    (calculate_kdj cs k_period k_smooth d_smooth).D.length = cs.length ∧
    (calculate_kdj cs k_period k_smooth d_smooth).J.length = cs.length := by
  refine ⟨?_, calculate_kdj_lengths cs k_period k_smooth d_smooth⟩
  unfold rsvAt
  simp only [rollingMin, rollingMax, if_neg (Nat.not_lt.mpr hk), optToPFloat, PFloat.sub]
  rw [hz, sub_self]
  simp only [PFloat.div]
  split_ifs <;> simp [PFloat.mulPos, PFloat.filled]

/-- C9 witness: two constant candles, window 2 at index 1: zero range,
RSV = 50, all columns defined. -/
theorem c9_witness :
    rsvAt 2 [⟨5, 5, 5⟩, ⟨5, 5, 5⟩] 1 = 50 ∧
    (calculate_kdj [⟨5, 5, 5⟩, ⟨5, 5, 5⟩] 2 3 3).K.length = 2 ∧
    (calculate_kdj [⟨5, 5, 5⟩, ⟨5, 5, 5⟩] 2 3 3).D.length = 2 ∧
    (calculate_kdj [⟨5, 5, 5⟩, ⟨5, 5, 5⟩] 2 3 3).J.length = 2 :=
  c9_rsv_neutral_on_zero_range 2 3 3 [⟨5, 5, 5⟩, ⟨5, 5, 5⟩] 1 (by norm_num)
    (by norm_num [window, listMin, listMax])

/-- C5 counterexample: a LONG held at entry 100 with stopLossPct 1
(RANGING parameters, spot).  At price 101 the recomputed stop is
100.596; the next cycle at price 100.5 recomputes 100.34925 — lower.
Neither cycle exits (both decisions are `hold`), so the position is
held open across both cycles and the trailing stop has decreased: it
is recomputed statelessly from the current price and loosens when the
price falls. -/
theorem c5_counterexample :
    long_stop_price .SPOT 1 100 101 (stop_loss_percentage .RANGING) = 25149 / 250 ∧
    long_stop_price .SPOT 1 100 (201 / 2) (stop_loss_percentage .RANGING) = 401397 / 4000 ∧
    long_position_decision .SPOT .RANGING 1 1 100 101 .HOLD 0 = .hold ∧
    long_position_decision .SPOT .RANGING 1 1 100 (201 / 2) .HOLD 0 = .hold ∧
    (401397 / 4000 : ℚ) < 25149 / 250 := by
  refine ⟨?_, ?_, ?_, ?_, by norm_num⟩ <;>
    norm_num [long_stop_price, long_position_decision, calculate_profit_percentage,
      trading_fee_rate, stop_loss_percentage, take_profit_percentage,
      signal_strength_threshold]

/-- Helper: the spot LONG profit of an open position, in closed form
(fees: 0.1% per side, 0.2% round trip). -/
theorem spot_long_profit_eq (lev entry cur : ℚ) (he : entry ≠ 0) :
    calculate_profit_percentage .SPOT (some .LONG) lev true entry cur =
      (cur - entry) / entry * 100 - 1 / 5 := by
  have hmode : (TradingMode.SPOT = TradingMode.FUTURES) = False := by simp
  norm_num [calculate_profit_percentage, trading_fee_rate, he, hmode]

/-- Helper: the spot trailing-stop price, in closed form. -/
theorem long_stop_price_spot_eq (lev entry cur slp : ℚ) (he : entry ≠ 0) :
    long_stop_price .SPOT lev entry cur slp =
      max (entry * (1 - slp / 100))
        (cur * (1 - (if (cur - entry) / entry * 100 - 1 / 5 > 0
            then min (((cur - entry) / entry * 100 - 1 / 5) / 2) slp else slp) / 100)) := by
  simp only [long_stop_price]
  rw [spot_long_profit_eq lev entry cur he]

/-- C5 (amended): in spot mode, for the configured stop-loss
percentages (both ≤ 2), the recomputed trailing-stop price is a
monotone non-decreasing function of the current price: across
consecutive cycles it never decreases so long as the price (hence the
unrealized profit) does not fall.  It is not monotone in time — when
the price falls while the position stays open, the recomputed stop
falls with it (see the counterexample): the code keeps no running
maximum. -/
theorem c5_trailing_stop_monotone_amended (lev entry c1 c2 slp : ℚ)
    (he : 0 < entry) (h1 : 0 < c1) (h12 : c1 ≤ c2)
    (hs0 : 0 < slp) (hs2 : slp ≤ 2) :
    long_stop_price .SPOT lev entry c1 slp ≤ long_stop_price .SPOT lev entry c2 slp := by
  have hne : entry ≠ 0 := he.ne'
  have h2pos : 0 < c2 := lt_of_lt_of_le h1 h12
  rw [long_stop_price_spot_eq lev entry c1 slp hne, long_stop_price_spot_eq lev entry c2 slp hne]
  obtain ⟨p1, hp1def⟩ : ∃ p : ℚ, (c1 - entry) / entry * 100 - 1 / 5 = p := ⟨_, rfl⟩
  obtain ⟨p2, hp2def⟩ : ∃ p : ℚ, (c2 - entry) / entry * 100 - 1 / 5 = p := ⟨_, rfl⟩
  rw [hp1def, hp2def]
  have hp1e : p1 * entry = 100 * (c1 - entry) - entry / 5 := by
    rw [← hp1def]; field_simp; ring
  have hp2e : p2 * entry = 100 * (c2 - entry) - entry / 5 := by
    rw [← hp2def]; field_simp; ring
  have hpmono : p1 ≤ p2 := by
    have hd := (div_le_div_iff_of_pos_right he).mpr (sub_le_sub_right h12 entry)
    rw [← hp1def, ← hp2def]
    linarith
  have easy : ∀ t : ℚ, t ≤ slp → c1 * (1 - slp / 100) ≤ c2 * (1 - t / 100) := by
    intro t ht
    nlinarith [mul_nonneg (sub_nonneg.2 h12) (by linarith : (0 : ℚ) ≤ 1 - slp / 100),
      mul_nonneg h2pos.le (sub_nonneg.2 ht)]
  refine max_le_max le_rfl ?_
  by_cases hp1pos : p1 > 0
  · have hp2pos : p2 > 0 := lt_of_lt_of_le hp1pos hpmono
    rw [if_pos hp1pos, if_pos hp2pos]
    rcases le_or_lt slp (p1 / 2) with hA | hB
    · -- the trailing percentage is capped at slp for cycle 1
      rw [min_eq_right hA]
      exact easy _ (min_le_right _ _)
    · -- cycle 1 uses half the profit: the quadratic regime
      rw [min_eq_left hB.le]
      rcases le_or_lt slp (p2 / 2) with hC | hD
      · -- cycle 2 is capped at slp: pass through the crossover price,
        -- the price at which the profit reaches exactly 2*slp
        rw [min_eq_right hC]
        obtain ⟨cstar, hcs⟩ : ∃ x : ℚ, entry * (1 + (2 * slp + 1 / 5) / 100) = x := ⟨_, rfl⟩
        have hpstar : (2 * slp) * entry = 100 * (cstar - entry) - entry / 5 := by
          rw [← hcs]; ring
        have hcstar_le : cstar ≤ entry * (1042 / 1000) := by
          have hm : entry * slp ≤ entry * 2 := mul_le_mul_of_nonneg_left hs2 he.le
          rw [← hcs]; nlinarith
        have hc1cs : c1 ≤ cstar := by
          have hlt : p1 * entry < (2 * slp) * entry :=
            mul_lt_mul_of_pos_right (by linarith) he
          rw [hpstar] at hlt
          linarith [hp1e]
        have hcsc2 : cstar ≤ c2 := by
          have hle : (2 * slp) * entry ≤ p2 * entry :=
            mul_le_mul_of_nonneg_right (by linarith) he.le
          rw [hpstar] at hle
          linarith [hp2e]
        have hsum : (0 : ℚ) ≤ 300 * entry + entry / 5 - 100 * (c1 + cstar) := by
          linarith [hcstar_le, hc1cs, he.le]
        have key1 : (0 : ℚ) ≤ (cstar - c1) * (300 * entry + entry / 5 - 100 * (c1 + cstar)) :=
          mul_nonneg (sub_nonneg.2 hc1cs) hsum
        have goal200e : 200 * entry * c1 - c1 * (p1 * entry) ≤
            200 * entry * cstar - cstar * ((2 * slp) * entry) := by
          rw [hp1e, hpstar]
          nlinarith [key1]
        have step2' : (c1 * (1 - p1 / 2 / 100)) * (200 * entry) ≤
            (cstar * (1 - slp / 100)) * (200 * entry) := by
          nlinarith [goal200e]
        have step2 : c1 * (1 - p1 / 2 / 100) ≤ cstar * (1 - slp / 100) :=
          le_of_mul_le_mul_right step2' (by positivity)
        have step3 : cstar * (1 - slp / 100) ≤ c2 * (1 - slp / 100) :=
          mul_le_mul_of_nonneg_right hcsc2 (by linarith)
        linarith
      · -- both cycles in the quadratic regime (profit below 2*slp)
        rw [min_eq_left hD.le]
        have hc2small : c2 ≤ entry * (1042 / 1000) := by
          have hlt : p2 * entry < (2 * slp) * entry :=
            mul_lt_mul_of_pos_right (by linarith) he
          have hm : entry * slp ≤ entry * 2 := mul_le_mul_of_nonneg_left hs2 he.le
          nlinarith [hp2e]
        have hsum : (0 : ℚ) ≤ 300 * entry + entry / 5 - 100 * (c1 + c2) := by
          linarith [hc2small, h12, he.le]
        have key1 : (0 : ℚ) ≤ (c2 - c1) * (300 * entry + entry / 5 - 100 * (c1 + c2)) :=
          mul_nonneg (sub_nonneg.2 h12) hsum
        have goal200e : 200 * entry * c1 - c1 * (p1 * entry) ≤
            200 * entry * c2 - c2 * (p2 * entry) := by
          rw [hp1e, hp2e]
          nlinarith [key1]
        have step2' : (c1 * (1 - p1 / 2 / 100)) * (200 * entry) ≤
            (c2 * (1 - p2 / 2 / 100)) * (200 * entry) := by
          nlinarith [goal200e]
        exact le_of_mul_le_mul_right step2' (by positivity)
  · -- no profit on cycle 1: the plain stop-loss percentage applies
    rw [if_neg hp1pos]
    by_cases hp2pos : p2 > 0
    · rw [if_pos hp2pos]
      exact easy _ (min_le_right _ _)
    · rw [if_neg hp2pos]
      exact easy _ le_rfl

/-- C5 witness: with the price rising from 101 to 102 the recomputed
stop does not decrease. -/
theorem c5_witness :
    long_stop_price .SPOT 1 100 101 1 ≤ long_stop_price .SPOT 1 100 102 1 :=
  c5_trailing_stop_monotone_amended 1 100 101 102 1 (by norm_num) (by norm_num)
    (by norm_num) (by norm_num) (by norm_num)

end KdjBot
